import Mathlib

/-!
Verification of the mavros setpoint_position plugin
(src/mavros/src/plugins/setpoint_position.cpp).

Scalar choices: translations are exact rationals; quaternion components live in
the ring Q2 = ℚ adjoin sqrt 2, because the unit quaternion of the ENU to NED
world rotation has components sqrt 2 / 2. The transcendental atan2 of yaw
extraction is kept symbolic: a yaw value is represented by the exact pair of
atan2 arguments the code would pass.
-/

/-- The commutative ring ℚ adjoin sqrt 2: the value a + b * sqrt 2 is stored as
the pair (a, b). All quaternion arithmetic of the plugin lives here. -/
@[ext] structure Q2 where
  a : ℚ
  b : ℚ
deriving DecidableEq

instance : Zero Q2 := ⟨⟨0, 0⟩⟩

instance : One Q2 := ⟨⟨1, 0⟩⟩

instance : Add Q2 := ⟨fun p q => ⟨p.a + q.a, p.b + q.b⟩⟩

instance : Neg Q2 := ⟨fun p => ⟨-p.a, -p.b⟩⟩

instance : Mul Q2 := ⟨fun p q => ⟨p.a * q.a + 2 * (p.b * q.b), p.a * q.b + p.b * q.a⟩⟩

@[simp] theorem Q2.zero_a : (0 : Q2).a = 0 := rfl

@[simp] theorem Q2.zero_b : (0 : Q2).b = 0 := rfl

@[simp] theorem Q2.one_a : (1 : Q2).a = 1 := rfl

@[simp] theorem Q2.one_b : (1 : Q2).b = 0 := rfl

@[simp] theorem Q2.add_a (p q : Q2) : (p + q).a = p.a + q.a := rfl

@[simp] theorem Q2.add_b (p q : Q2) : (p + q).b = p.b + q.b := rfl

@[simp] theorem Q2.neg_a (p : Q2) : (-p).a = -p.a := rfl

@[simp] theorem Q2.neg_b (p : Q2) : (-p).b = -p.b := rfl

@[simp] theorem Q2.mul_a (p q : Q2) : (p * q).a = p.a * q.a + 2 * (p.b * q.b) := rfl

@[simp] theorem Q2.mul_b (p q : Q2) : (p * q).b = p.a * q.b + p.b * q.a := rfl

instance : NatCast Q2 := ⟨fun n => ⟨n, 0⟩⟩

instance : IntCast Q2 := ⟨fun n => ⟨n, 0⟩⟩

@[simp] theorem Q2.natCast_a (n : ℕ) : ((n : Q2)).a = n := rfl

@[simp] theorem Q2.natCast_b (n : ℕ) : ((n : Q2)).b = 0 := rfl

@[simp] theorem Q2.intCast_a (n : ℤ) : ((n : Q2)).a = n := rfl

@[simp] theorem Q2.intCast_b (n : ℤ) : ((n : Q2)).b = 0 := rfl

instance : CommRing Q2 where
  add := (· + ·)
  zero := 0
  neg := Neg.neg
  mul := (· * ·)
  one := 1
  nsmul := nsmulRec
  zsmul := zsmulRec
  natCast := Nat.cast
  intCast := Int.cast
  add_assoc := by intros; ext <;> simp <;> ring
  zero_add := by intros; ext <;> simp
  add_zero := by intros; ext <;> simp
  add_comm := by intros; ext <;> simp <;> ring
  mul_assoc := by intros; ext <;> simp <;> ring
  one_mul := by intros; ext <;> simp
  mul_one := by intros; ext <;> simp
  left_distrib := by intros; ext <;> simp <;> ring
  right_distrib := by intros; ext <;> simp <;> ring
  zero_mul := by intros; ext <;> simp
  mul_zero := by intros; ext <;> simp
  mul_comm := by intros; ext <;> simp <;> ring
  neg_add_cancel := by intros; ext <;> simp
  natCast_zero := by ext <;> simp
  natCast_succ := by intros; ext <;> simp
  intCast_ofNat := by intros; ext <;> simp
  intCast_negSucc := by intros; ext <;> simp

/-- Three component translation vector, modelling Eigen Vector3d with exact
rationals. -/
@[ext] structure Vec3 where
  x : ℚ
  y : ℚ
  z : ℚ
deriving DecidableEq

/-- Quaternion with components in Q2, stored (w, x, y, z) as Eigen Quaterniond
does. -/
@[ext] structure Quat where
  w : Q2
  x : Q2
  y : Q2
  z : Q2
deriving DecidableEq

/-- Hamilton product of two quaternions, as Eigen multiplication computes it. -/
def quat_mul (p q : Quat) : Quat :=
  ⟨p.w * q.w - p.x * q.x - p.y * q.y - p.z * q.z,
   p.w * q.x + p.x * q.w + p.y * q.z - p.z * q.y,
   p.w * q.y - p.x * q.z + p.y * q.w + p.z * q.x,
   p.w * q.z + p.x * q.y - p.y * q.x + p.z * q.w⟩

/-- Quaternion conjugate. -/
def quat_conj (q : Quat) : Quat := ⟨q.w, -q.x, -q.y, -q.z⟩

/-- Squared norm of a quaternion. -/
def quat_norm_sq (q : Quat) : Q2 := q.w * q.w + q.x * q.x + q.y * q.y + q.z * q.z

/-- Modelled from the spec: protocol id of MAV_FRAME LOCAL_NED, the
WORLD_LOCAL_NED convention. The MAV_FRAME enumeration lives in the external
mavlink headers, outside src; only distinctness of the ids matters to the
plugin logic. -/
def MAV_FRAME_LOCAL_NED : Int := 1

/-- Modelled from the spec: protocol id of MAV_FRAME LOCAL_ENU, the WORLD_LOCAL
convention. -/
def MAV_FRAME_LOCAL_ENU : Int := 4

/-- Modelled from the spec: protocol id of MAV_FRAME BODY_NED, the
BODY_RELATIVE convention. -/
def MAV_FRAME_BODY_NED : Int := 8

/-- Modelled from the spec: protocol id of MAV_FRAME BODY_OFFSET_NED, the
BODY_RELATIVE_OFFSET convention. -/
def MAV_FRAME_BODY_OFFSET_NED : Int := 9

/-- Modelled from the spec: ftf transform_frame_enu_ned, missing from src. The
world axis map east-north-up to north-east-down: (e, n, u) maps to
(n, e, -u). -/
def transform_frame_enu_ned (v : Vec3) : Vec3 := ⟨v.y, v.x, -v.z⟩

/-- Modelled from the spec: ftf transform_frame_baselink_aircraft, missing from
src. The body axis remap forward-left-up to forward-right-down: (f, l, u) maps
to (f, -l, -u). -/
def transform_frame_baselink_aircraft (v : Vec3) : Vec3 := ⟨v.x, -v.y, -v.z⟩

/-- Half of sqrt 2 as an element of Q2. -/
def sqrt2_half : Q2 := ⟨0, 1/2⟩

/-- Modelled from the spec: the unit quaternion of the world axis ENU to NED
rotation, a half turn around the axis (1,1,0)/sqrt 2, with components
(0, s, s, 0) where s = sqrt 2 / 2. Conjugation by it realizes
transform_frame_enu_ned on vectors, see ned_enu_q_rotates_vectors. -/
def NED_ENU_Q : Quat := ⟨0, sqrt2_half, sqrt2_half, 0⟩

/-- Modelled from the spec: the unit quaternion of the body remap rotation, a
half turn around the body x axis. Conjugation by it realizes
transform_frame_baselink_aircraft on vectors, see
aircraft_baselink_q_rotates_vectors. -/
def AIRCRAFT_BASELINK_Q : Quat := ⟨0, 1, 0, 0⟩

/-- Modelled from the spec: ftf transform_orientation_enu_ned, missing from
src. The equivalent rotation-composition of the world axis transform: the world
rotation composes on the left of the pose quaternion. -/
def transform_orientation_enu_ned (q : Quat) : Quat := quat_mul NED_ENU_Q q

/-- Modelled from the spec: ftf transform_orientation_baselink_aircraft,
missing from src. The body remap rotation composes on the right of the pose
quaternion. -/
def transform_orientation_baselink_aircraft (q : Quat) : Quat :=
  quat_mul q AIRCRAFT_BASELINK_Q

/-- A pending atan2 application: the real yaw angle is atan2 y x. Kept symbolic
because atan2 is transcendental; every plugin level fact is about the exact
argument pair. -/
@[ext] structure Atan2Args where
  y : Q2
  x : Q2
deriving DecidableEq

/-- Modelled from the spec: ftf quaternion_get_yaw, missing from src. The
standard quaternion to yaw projection atan2 (2 (w z + x y)) (1 - 2 (y y + z z)),
represented by its argument pair; roll and pitch are discarded. -/
def quaternion_get_yaw (q : Quat) : Atan2Args :=
  ⟨2 * (q.w * q.z + q.x * q.y), 1 - 2 * (q.y * q.y + q.z * q.z)⟩

/-- Entry (0,0) of the rotation matrix of a unit quaternion, standard form. -/
def quat_rot_m00 (q : Quat) : Q2 := q.w * q.w + q.x * q.x - q.y * q.y - q.z * q.z

/-- Entry (1,0) of the rotation matrix of a unit quaternion, standard form. -/
def quat_rot_m10 (q : Quat) : Q2 := 2 * (q.x * q.y + q.w * q.z)

/-- The outbound SET_POSITION_TARGET_LOCAL_NED command value, fields as in spec
section 6. -/
structure SetpointCommand where
  time_ms : ℕ
  frame : Int
  ignore_mask : ℕ
  position : Vec3
  velocity : Vec3
  acceleration : Vec3
  yaw : Atan2Args
  yaw_rate : ℚ
deriving DecidableEq

/-- Modelled from the spec: the SetPositionTargetLocalNEDMixin, missing from
src, assembles the outbound command verbatim from its arguments; time_boot_ms
is narrowed to the unsigned 32 bit field and type_mask to the unsigned 16 bit
field of the wire format. -/
def set_position_target_local_ned (time_boot_ms : ℕ) (coordinate_frame : Int)
    (type_mask : ℕ) (p v af : Vec3) (yaw : Atan2Args) (yaw_rate : ℚ) :
    SetpointCommand :=
  ⟨time_boot_ms % 4294967296, coordinate_frame, type_mask % 65536,
   p, v, af, yaw, yaw_rate⟩

/-- Embedding of send_position_target, setpoint_position.cpp lines 100 to 135:
resolves translation and orientation according to the active mav_frame, then
assembles the command with velocity, acceleration and yaw rate zeroed and the
constant ignore mask. -/
def send_position_target (mav_frame : Int) (stamp_ns : ℕ) (tr_translation : Vec3)
    (tr_rotation : Quat) : SetpointCommand :=
  let ignore_all_except_xyz_y : ℕ := (1 <<< 11) ||| (7 <<< 6) ||| (7 <<< 3)
  let p : Vec3 :=
    if mav_frame = MAV_FRAME_BODY_NED ∨ mav_frame = MAV_FRAME_BODY_OFFSET_NED then
      transform_frame_baselink_aircraft tr_translation
    else
      transform_frame_enu_ned tr_translation
  let q : Quat :=
    if mav_frame = MAV_FRAME_BODY_NED ∨ mav_frame = MAV_FRAME_BODY_OFFSET_NED then
      transform_orientation_baselink_aircraft tr_rotation
    else
      transform_orientation_enu_ned (transform_orientation_baselink_aircraft tr_rotation)
  set_position_target_local_ned (stamp_ns / 1000000) mav_frame
    ignore_all_except_xyz_y p ⟨0, 0, 0⟩ ⟨0, 0, 0⟩ (quaternion_get_yaw q) 0

/-- The plugin state the claims can observe: the active mav_frame member and
the external parameter store, modelled as an association list. -/
structure PluginState where
  mav_frame : Int
  params : List (String × String)

/-- Store a key value pair in the parameter store, replacing a prior binding. -/
def setParam : List (String × String) → String → String → List (String × String)
  | [], k, v => [(k, v)]
  | (k0, v0) :: rest, k, v =>
    if k0 = k then (k, v) :: rest else (k0, v0) :: setParam rest k v

/-- Read a key from the parameter store. -/
def getParam : List (String × String) → String → Option String
  | [], _ => none
  | (k0, v0) :: rest, k => if k0 = k then some v0 else getParam rest k

/-- Modelled from the spec: utils to_string for MAV_FRAME, missing from src.
The human readable convention names of spec section 3; ids outside the modelled
enumeration print a placeholder. -/
def mav_frame_to_str (f : Int) : String :=
  if f = MAV_FRAME_LOCAL_ENU then "WORLD_LOCAL"
  else if f = MAV_FRAME_LOCAL_NED then "WORLD_LOCAL_NED"
  else if f = MAV_FRAME_BODY_NED then "BODY_RELATIVE"
  else if f = MAV_FRAME_BODY_OFFSET_NED then "BODY_RELATIVE_OFFSET"
  else "UNKNOWN"

/-- Modelled from the spec: utils mav_frame_from_str, missing from src. Known
names map to their ids; unknown names fall back to the default WORLD_LOCAL_NED,
spec sections 6 and 7. -/
def mav_frame_from_str (s : String) : Int :=
  if s = "WORLD_LOCAL" then MAV_FRAME_LOCAL_ENU
  else if s = "WORLD_LOCAL_NED" then MAV_FRAME_LOCAL_NED
  else if s = "BODY_RELATIVE" then MAV_FRAME_BODY_NED
  else if s = "BODY_RELATIVE_OFFSET" then MAV_FRAME_BODY_OFFSET_NED
  else MAV_FRAME_LOCAL_NED

/-- Embedding of set_mav_frame_cb, lines 156 to 163: installs the requested id
as the active mav_frame with no validation, persists its name to the parameter
store, and reports success unconditionally. -/
def set_mav_frame_cb (st : PluginState) (req_mav_frame : Int) :
    PluginState × Bool :=
  let mav_frame := req_mav_frame
  let mav_frame_str := mav_frame_to_str mav_frame
  ({ mav_frame := mav_frame,
     params := setParam st.params "mav_frame" mav_frame_str }, true)

/-- Both pose callbacks, lines 140 to 154, call send_position_target, which
reads the mav_frame member at call time; this is that read made explicit. -/
def encode_with_state (st : PluginState) (stamp_ns : ℕ) (tr : Vec3)
    (rot : Quat) : SetpointCommand :=
  send_position_target st.mav_frame stamp_ns tr rot

/-- Configuration read at start, lines 48 to 51 and 63 to 69: the listen flag,
the stream rate limit, and the optionally persisted frame name. -/
structure Config where
  tf_listen : Bool
  tf_rate : ℚ
  mav_frame_param : Option String

/-- Which pose source was activated at start and which frame convention was
installed. -/
structure InitResult where
  tf_listener_started : Bool
  setpoint_sub_created : Bool
  mav_frame : Int

/-- Embedding of the plugin start up, lines 43 to 70: exactly one of the two
pose sources is created, chosen by tf_listen, and the active mav_frame is
decoded from the persisted name when present, else LOCAL_NED. -/
def plugin_init (cfg : Config) : InitResult :=
  { tf_listener_started := cfg.tf_listen,
    setpoint_sub_created := !cfg.tf_listen,
    mav_frame :=
      match cfg.mav_frame_param with
      | none => MAV_FRAME_LOCAL_NED
      | some s => mav_frame_from_str s }

/-- Default stream rate limit in updates per second, lines 39 and 51. -/
def tf_rate_default : ℚ := 50

/-- Modelled from the spec: the TF2 listener mixin rate limiter, missing from
src. State is the minimum inter update interval in milliseconds and the
arrival time of the last processed update. -/
structure RateLimiter where
  min_interval : ℚ
  last : Option ℚ

/-- Modelled from the spec: one rate limiter decision. An update closer than
min_interval to the last processed update is dropped and does not advance the
clock; otherwise it is accepted and becomes the last processed update. -/
def rl_step (rl : RateLimiter) (t : ℚ) : RateLimiter × Bool :=
  match rl.last with
  | none => ({ rl with last := some t }, true)
  | some l =>
    if t - l < rl.min_interval then (rl, false)
    else ({ rl with last := some t }, true)

/-- A transform stream update: the pose payload carried by one update. -/
structure Pose where
  stamp_ns : ℕ
  translation : Vec3
  orientation : Quat

/-- Modelled from the spec: the stream variant feeds each accepted update to
the encoder exactly once, in order; dropped updates are not buffered. Input is
the list of (arrival time in milliseconds, pose) pairs; output is the list of
encoder results. -/
def run_stream (mav_frame : Int) (rl : RateLimiter) :
    List (ℚ × Pose) → List SetpointCommand
  | [] => []
  | (t, p) :: rest =>
    let s := rl_step rl t
    if s.2 then
      send_position_target mav_frame p.stamp_ns p.translation p.orientation ::
        run_stream mav_frame s.1 rest
    else
      run_stream mav_frame s.1 rest

/-! ## Supporting lemmas -/

@[simp] theorem Q2.sub_a (p q : Q2) : (p - q).a = p.a - q.a := by
  simp [sub_eq_add_neg]

@[simp] theorem Q2.sub_b (p q : Q2) : (p - q).b = p.b - q.b := by
  simp [sub_eq_add_neg]

/-- Conjugation by AIRCRAFT_BASELINK_Q acts on pure vector quaternions exactly
as the body axis remap forward-left-up to forward-right-down. -/
theorem aircraft_baselink_q_rotates_vectors (vx vy vz : Q2) :
    quat_mul (quat_mul AIRCRAFT_BASELINK_Q ⟨0, vx, vy, vz⟩) (quat_conj AIRCRAFT_BASELINK_Q) =
      ⟨0, vx, -vy, -vz⟩ := by
  apply Quat.ext <;> simp [quat_mul, quat_conj, AIRCRAFT_BASELINK_Q]

/-- Conjugation by NED_ENU_Q acts on pure vector quaternions exactly as the
world axis map east-north-up to north-east-down. -/
theorem ned_enu_q_rotates_vectors (vx vy vz : Q2) :
    quat_mul (quat_mul NED_ENU_Q ⟨0, vx, vy, vz⟩) (quat_conj NED_ENU_Q) =
      ⟨0, vy, vx, -vz⟩ := by
  apply Quat.ext <;> apply Q2.ext <;>
    simp [quat_mul, quat_conj, NED_ENU_Q, sqrt2_half] <;> ring

/-- The modelled world rotation quaternion is a unit quaternion. -/
theorem ned_enu_q_unit : quat_norm_sq NED_ENU_Q = 1 := by
  apply Q2.ext <;> norm_num [quat_norm_sq, NED_ENU_Q, sqrt2_half]

/-- The modelled body remap quaternion is a unit quaternion. -/
theorem aircraft_baselink_q_unit : quat_norm_sq AIRCRAFT_BASELINK_Q = 1 := by
  simp [quat_norm_sq, AIRCRAFT_BASELINK_Q]

/-- Reading a parameter back after storing it yields the stored value. -/
theorem getParam_setParam (ps : List (String × String)) (k v : String) :
    getParam (setParam ps k v) k = some v := by
  induction ps with
  | nil => simp [setParam, getParam]
  | cons hd tl ih =>
    obtain ⟨k0, v0⟩ := hd
    by_cases h : k0 = k
    · simp [setParam, getParam, h]
    · simp [setParam, getParam, h, ih]

/-! ## Claim theorems -/

/-- C1: for every pose encoded while the active frame is world-fixed (neither
BODY_NED nor BODY_OFFSET_NED), the resolved translation is the world axis
transform of the input translation: input (east, north, up) yields
(north, east, -up). -/
theorem C1_world_fixed_translation_flip (mav_frame : Int) (stamp_ns : ℕ)
    (tr : Vec3) (rot : Quat)
    (h1 : mav_frame ≠ MAV_FRAME_BODY_NED)
    (h2 : mav_frame ≠ MAV_FRAME_BODY_OFFSET_NED) :
    (send_position_target mav_frame stamp_ns tr rot).position = ⟨tr.y, tr.x, -tr.z⟩ := by
  have hc : ¬(mav_frame = MAV_FRAME_BODY_NED ∨ mav_frame = MAV_FRAME_BODY_OFFSET_NED) := by
    tauto
  simp [send_position_target, set_position_target_local_ned, transform_frame_enu_ned, hc]

/-- C1 witness: translation (1, 2, 3) under WORLD_LOCAL_NED resolves to
(2, 1, -3). -/
theorem C1_world_fixed_translation_flip_witness :
    (send_position_target MAV_FRAME_LOCAL_NED 0 ⟨1, 2, 3⟩ ⟨1, 0, 0, 0⟩).position =
      ⟨2, 1, -3⟩ :=
  C1_world_fixed_translation_flip MAV_FRAME_LOCAL_NED 0 ⟨1, 2, 3⟩ ⟨1, 0, 0, 0⟩
    (by decide) (by decide)

/-- C2: for every pose encoded while the active frame is BODY_NED or
BODY_OFFSET_NED, only the body axis remap forward-left-up to
forward-right-down is applied, to both translation and orientation; the world
axis flip is not applied. The last conjunct identifies the quaternion used for
the orientation as exactly that body remap rotation. -/
theorem C2_body_relative_only_body_remap (mav_frame : Int) (stamp_ns : ℕ)
    (tr : Vec3) (rot : Quat)
    (h : mav_frame = MAV_FRAME_BODY_NED ∨ mav_frame = MAV_FRAME_BODY_OFFSET_NED) :
    (send_position_target mav_frame stamp_ns tr rot).position =
      transform_frame_baselink_aircraft tr ∧
    (send_position_target mav_frame stamp_ns tr rot).position = ⟨tr.x, -tr.y, -tr.z⟩ ∧
    (send_position_target mav_frame stamp_ns tr rot).yaw =
      quaternion_get_yaw (transform_orientation_baselink_aircraft rot) ∧
    (∀ vx vy vz : Q2,
      quat_mul (quat_mul AIRCRAFT_BASELINK_Q ⟨0, vx, vy, vz⟩) (quat_conj AIRCRAFT_BASELINK_Q) =
        ⟨0, vx, -vy, -vz⟩) := by
  obtain rfl | rfl := h <;>
    exact ⟨rfl, rfl, rfl, fun vx vy vz => aircraft_baselink_q_rotates_vectors vx vy vz⟩

/-- C2 witness: under BODY_NED, translation (1, 2, 3) resolves to (1, -2, -3)
and the yaw quaternion is the body remapped input. -/
theorem C2_body_relative_only_body_remap_witness :
    (send_position_target MAV_FRAME_BODY_NED 0 ⟨1, 2, 3⟩ ⟨1, 0, 0, 0⟩).position =
      transform_frame_baselink_aircraft ⟨1, 2, 3⟩ ∧
    (send_position_target MAV_FRAME_BODY_NED 0 ⟨1, 2, 3⟩ ⟨1, 0, 0, 0⟩).position =
      ⟨1, -2, -3⟩ ∧
    (send_position_target MAV_FRAME_BODY_NED 0 ⟨1, 2, 3⟩ ⟨1, 0, 0, 0⟩).yaw =
      quaternion_get_yaw (transform_orientation_baselink_aircraft ⟨1, 0, 0, 0⟩) := by
  have h := C2_body_relative_only_body_remap MAV_FRAME_BODY_NED 0 ⟨1, 2, 3⟩ ⟨1, 0, 0, 0⟩
    (Or.inl rfl)
  exact ⟨h.1, h.2.1, h.2.2.1⟩

/-- C3: for every pose encoded while the active frame is world-fixed, the
resolved orientation is the body remap followed by composition with the ENU to
NED world rotation, and the transmitted yaw is the standard quaternion to yaw
projection of that final quaternion. Second conjunct: the composed world
rotation is exactly the rotation realizing the ENU to NED vector map. Third
conjunct: on unit quaternions the projection takes atan2 of the rotation
matrix entries (1,0) and (0,0), discarding roll and pitch. -/
theorem C3_world_fixed_orientation_composition (mav_frame : Int) (stamp_ns : ℕ)
    (tr : Vec3) (rot : Quat)
    (h1 : mav_frame ≠ MAV_FRAME_BODY_NED)
    (h2 : mav_frame ≠ MAV_FRAME_BODY_OFFSET_NED) :
    (send_position_target mav_frame stamp_ns tr rot).yaw =
      quaternion_get_yaw (transform_orientation_enu_ned
        (transform_orientation_baselink_aircraft rot)) ∧
    (∀ vx vy vz : Q2,
      quat_mul (quat_mul NED_ENU_Q ⟨0, vx, vy, vz⟩) (quat_conj NED_ENU_Q) =
        ⟨0, vy, vx, -vz⟩) ∧
    (∀ q : Quat, quat_norm_sq q = 1 →
      quaternion_get_yaw q = ⟨quat_rot_m10 q, quat_rot_m00 q⟩) := by
  refine ⟨?_, fun vx vy vz => ned_enu_q_rotates_vectors vx vy vz, fun q hq => ?_⟩
  · have hc : ¬(mav_frame = MAV_FRAME_BODY_NED ∨ mav_frame = MAV_FRAME_BODY_OFFSET_NED) := by
      tauto
    simp [send_position_target, set_position_target_local_ned, hc]
  · unfold quat_norm_sq at hq
    refine Atan2Args.ext ?_ ?_
    · show 2 * (q.w * q.z + q.x * q.y) = quat_rot_m10 q
      unfold quat_rot_m10
      ring
    · show 1 - 2 * (q.y * q.y + q.z * q.z) = quat_rot_m00 q
      unfold quat_rot_m00
      linear_combination -hq

/-- C3 witness: the identity orientation under WORLD_LOCAL, and the projection
agreeing with the rotation matrix entries on a concrete unit quaternion. -/
theorem C3_world_fixed_orientation_composition_witness :
    (send_position_target MAV_FRAME_LOCAL_ENU 0 ⟨0, 0, 0⟩ ⟨1, 0, 0, 0⟩).yaw =
      quaternion_get_yaw (transform_orientation_enu_ned
        (transform_orientation_baselink_aircraft ⟨1, 0, 0, 0⟩)) ∧
    quaternion_get_yaw ⟨1, 0, 0, 0⟩ =
      ⟨quat_rot_m10 ⟨1, 0, 0, 0⟩, quat_rot_m00 ⟨1, 0, 0, 0⟩⟩ := by
  have h := C3_world_fixed_orientation_composition MAV_FRAME_LOCAL_ENU 0 ⟨0, 0, 0⟩
    ⟨1, 0, 0, 0⟩ (by decide) (by decide)
  exact ⟨h.1, h.2.2 ⟨1, 0, 0, 0⟩ (by simp [quat_norm_sq])⟩

/-- C4: every emitted command, whatever the inputs and active frame, carries
the constant ignore mask 2552 (bit 11 and bits 3 to 8 set, bits 0 to 2 and
bit 10 clear: velocity, acceleration and yaw rate ignored, position and yaw
used), fits 16 bits, and has velocity, acceleration and yaw rate all zero. -/
theorem C4_ignore_mask_constant (mav_frame : Int) (stamp_ns : ℕ) (tr : Vec3)
    (rot : Quat) :
    (send_position_target mav_frame stamp_ns tr rot).ignore_mask = 2552 ∧
    (send_position_target mav_frame stamp_ns tr rot).ignore_mask =
      ((1 <<< 11) ||| (7 <<< 6) ||| (7 <<< 3)) ∧
    (send_position_target mav_frame stamp_ns tr rot).ignore_mask < 65536 ∧
    ((send_position_target mav_frame stamp_ns tr rot).ignore_mask.testBit 11 = true) ∧
    ((send_position_target mav_frame stamp_ns tr rot).ignore_mask.testBit 8 = true) ∧
    ((send_position_target mav_frame stamp_ns tr rot).ignore_mask.testBit 7 = true) ∧
    ((send_position_target mav_frame stamp_ns tr rot).ignore_mask.testBit 6 = true) ∧
    ((send_position_target mav_frame stamp_ns tr rot).ignore_mask.testBit 5 = true) ∧
    ((send_position_target mav_frame stamp_ns tr rot).ignore_mask.testBit 4 = true) ∧
    ((send_position_target mav_frame stamp_ns tr rot).ignore_mask.testBit 3 = true) ∧
    ((send_position_target mav_frame stamp_ns tr rot).ignore_mask.testBit 10 = false) ∧
    ((send_position_target mav_frame stamp_ns tr rot).ignore_mask.testBit 2 = false) ∧
    ((send_position_target mav_frame stamp_ns tr rot).ignore_mask.testBit 1 = false) ∧
    ((send_position_target mav_frame stamp_ns tr rot).ignore_mask.testBit 0 = false) ∧
    (send_position_target mav_frame stamp_ns tr rot).velocity = ⟨0, 0, 0⟩ ∧
    (send_position_target mav_frame stamp_ns tr rot).acceleration = ⟨0, 0, 0⟩ ∧
    (send_position_target mav_frame stamp_ns tr rot).yaw_rate = 0 := by
  have e : (send_position_target mav_frame stamp_ns tr rot).ignore_mask = 2552 := by
    show ((1 <<< 11) ||| (7 <<< 6) ||| (7 <<< 3) : ℕ) % 65536 = 2552
    decide
  rw [e]
  exact ⟨rfl, by decide, by decide, by decide, by decide, by decide, by decide,
    by decide, by decide, by decide, by decide, by decide, by decide, by decide,
    rfl, rfl, rfl⟩

/-- C5: the frame selection handler installs any requested integer id without
validation, persists the convention name to the parameter store, reports
success unconditionally, and every subsequent encode reads the newly installed
convention. -/
theorem C5_frame_selection_unvalidated (st : PluginState) (req : Int)
    (stamp_ns : ℕ) (tr : Vec3) (rot : Quat) :
    (set_mav_frame_cb st req).1.mav_frame = req ∧
    (set_mav_frame_cb st req).2 = true ∧
    getParam (set_mav_frame_cb st req).1.params "mav_frame" =
      some (mav_frame_to_str req) ∧
    encode_with_state (set_mav_frame_cb st req).1 stamp_ns tr rot =
      send_position_target req stamp_ns tr rot :=
  ⟨rfl, rfl, getParam_setParam st.params "mav_frame" (mav_frame_to_str req), rfl⟩

/-- C6: the emitted time_ms is the pose timestamp in nanoseconds divided by
one million with truncation toward zero, never rounding: as long as the result
fits the unsigned 32 bit wire field, time_ms * 10^6 bounds the timestamp from
below and (time_ms + 1) * 10^6 bounds it strictly from above. -/
theorem C6_time_ms_truncation (mav_frame : Int) (stamp_ns : ℕ) (tr : Vec3)
    (rot : Quat) (h : stamp_ns < 4294967296 * 1000000) :
    (send_position_target mav_frame stamp_ns tr rot).time_ms = stamp_ns / 1000000 ∧
    (send_position_target mav_frame stamp_ns tr rot).time_ms * 1000000 ≤ stamp_ns ∧
    stamp_ns < ((send_position_target mav_frame stamp_ns tr rot).time_ms + 1) * 1000000 := by
  have e : (send_position_target mav_frame stamp_ns tr rot).time_ms =
      stamp_ns / 1000000 % 4294967296 := rfl
  rw [e]
  omega

/-- C6 witness: timestamp 1500000050 nanoseconds yields time_ms 1500, not
1501. -/
theorem C6_time_ms_truncation_witness :
    (send_position_target MAV_FRAME_LOCAL_NED 1500000050 ⟨1, 2, 3⟩ ⟨1, 0, 0, 0⟩).time_ms =
      1500 ∧ (1500 : ℕ) ≠ 1501 := by
  have h := C6_time_ms_truncation MAV_FRAME_LOCAL_NED 1500000050 ⟨1, 2, 3⟩ ⟨1, 0, 0, 0⟩
    (by decide)
  exact ⟨h.1, by decide⟩

/-- C7: at start up exactly one pose source is activated, chosen by the
tf_listen flag: the transform stream listener exactly when the flag is set,
the discrete pose subscription exactly when it is not; never both, never
neither. -/
theorem C7_exactly_one_pose_source (cfg : Config) :
    (plugin_init cfg).tf_listener_started = cfg.tf_listen ∧
    (plugin_init cfg).setpoint_sub_created = !cfg.tf_listen ∧
    (plugin_init cfg).tf_listener_started ≠ (plugin_init cfg).setpoint_sub_created := by
  refine ⟨rfl, rfl, ?_⟩
  cases h : cfg.tf_listen <;> simp [plugin_init, h]

/-- C8: at start up, a missing persisted frame name yields the default
LOCAL_NED, and a present persisted name is decoded into the active
convention. -/
theorem C8_startup_frame_fallback (cfg : Config) :
    (cfg.mav_frame_param = none →
      (plugin_init cfg).mav_frame = MAV_FRAME_LOCAL_NED) ∧
    (∀ s, cfg.mav_frame_param = some s →
      (plugin_init cfg).mav_frame = mav_frame_from_str s) := by
  constructor
  · intro h
    simp [plugin_init, h]
  · intro s h
    simp [plugin_init, h]

/-- C8 witness: concrete start ups with an absent and with a present persisted
name. -/
theorem C8_startup_frame_fallback_witness :
    (plugin_init ⟨false, 50, none⟩).mav_frame = MAV_FRAME_LOCAL_NED ∧
    (plugin_init ⟨false, 50, some "BODY_RELATIVE"⟩).mav_frame =
      mav_frame_from_str "BODY_RELATIVE" :=
  ⟨(C8_startup_frame_fallback ⟨false, 50, none⟩).1 rfl,
   (C8_startup_frame_fallback ⟨false, 50, some "BODY_RELATIVE"⟩).2 "BODY_RELATIVE" rfl⟩

/-- C9: an update arriving strictly within the minimum inter update interval
of the last processed update is dropped without advancing the rate limiter
clock, and with the default 50 Hz limit (20 ms interval) two updates 5 ms
apart produce exactly one encoder invocation, for the first update. -/
theorem C9_stream_rate_limit_drop :
    (∀ (rl : RateLimiter) (t l : ℚ), rl.last = some l → t - l < rl.min_interval →
      rl_step rl t = (rl, false)) ∧
    (∀ (mav_frame : Int) (p1 p2 : Pose),
      run_stream mav_frame ⟨1000 / tf_rate_default, none⟩ [(0, p1), (5, p2)] =
        [send_position_target mav_frame p1.stamp_ns p1.translation p1.orientation]) := by
  constructor
  · rintro ⟨mi, last⟩ t l hl hint
    cases hl
    have hint2 : t - l < mi := hint
    simp [rl_step, hint2]
  · intro mav_frame p1 p2
    norm_num [run_stream, rl_step, tf_rate_default]

/-- C9 witness: a limiter with a 20 ms interval that last processed at time 0
drops an update at time 5 and keeps its clock. -/
theorem C9_stream_rate_limit_drop_witness :
    rl_step ⟨20, some 0⟩ 5 = (⟨20, some 0⟩, false) :=
  C9_stream_rate_limit_drop.1 ⟨20, some 0⟩ 5 0 rfl (by norm_num)

/-- C10: every frame id other than BODY_NED and BODY_OFFSET_NED, including ids
outside the known enumeration installed through the selection service, takes
the world-fixed branch: ENU to NED translation flip, body remap then ENU to
NED composition for orientation, and the id itself is emitted in the
command. -/
theorem C10_unknown_frame_world_fixed (mav_frame : Int) (stamp_ns : ℕ)
    (tr : Vec3) (rot : Quat)
    (h1 : mav_frame ≠ MAV_FRAME_BODY_NED)
    (h2 : mav_frame ≠ MAV_FRAME_BODY_OFFSET_NED) :
    (send_position_target mav_frame stamp_ns tr rot).position =
      transform_frame_enu_ned tr ∧
    (send_position_target mav_frame stamp_ns tr rot).yaw =
      quaternion_get_yaw (transform_orientation_enu_ned
        (transform_orientation_baselink_aircraft rot)) ∧
    (send_position_target mav_frame stamp_ns tr rot).frame = mav_frame := by
  have hc : ¬(mav_frame = MAV_FRAME_BODY_NED ∨ mav_frame = MAV_FRAME_BODY_OFFSET_NED) := by
    tauto
  refine ⟨?_, ?_, rfl⟩ <;>
    simp [send_position_target, set_position_target_local_ned, hc]

/-- C10 witness: the unrecognized frame id 100 is treated as a world-fixed
convention and emitted unchanged. -/
theorem C10_unknown_frame_world_fixed_witness :
    (send_position_target 100 0 ⟨1, 2, 3⟩ ⟨1, 0, 0, 0⟩).position =
      transform_frame_enu_ned ⟨1, 2, 3⟩ ∧
    (send_position_target 100 0 ⟨1, 2, 3⟩ ⟨1, 0, 0, 0⟩).yaw =
      quaternion_get_yaw (transform_orientation_enu_ned
        (transform_orientation_baselink_aircraft ⟨1, 0, 0, 0⟩)) ∧
    (send_position_target 100 0 ⟨1, 2, 3⟩ ⟨1, 0, 0, 0⟩).frame = 100 :=
  C10_unknown_frame_world_fixed 100 0 ⟨1, 2, 3⟩ ⟨1, 0, 0, 0⟩ (by decide) (by decide)
